import Mathlib

/-!
Shallow embedding of the verifierSDK credential-verification core
(src/src/types/interfaces.ts, src/src/core/index.ts, the format handlers in
src/src/handlers and src/dist/src/handlers/mobile-license.js, and the mock
crypto suites in src/src/crypto), together with theorems settling the frozen
claims about the orchestrator, dispatch, policy execution and the reference
handlers.

Modelling conventions:
- TypeScript values that may be absent (undefined/null) are Option types.
- JavaScript truthiness on strings is modelled by jsStrTruthy (absent or
  empty string is falsy); on objects and arrays by Option.isSome (any object
  or array, also an empty one, is truthy).
- A thrown JavaScript exception is Except.error carrying the message of the
  Error object; code that may throw returns Except String α, code that
  catches all exceptions returns a plain value.
- JavaScript string-keyed records are association lists in insertion order;
  assignment to an existing key replaces the value in place, assignment to a
  fresh key appends (recordInsert).
-/

namespace VerifierSDK

/-- Open key-to-value claims mapping (credentialSubject, data elements). -/
abbrev Claims := List (String × String)

/-- A dynamically typed type field: absent, a single string, or an array of
strings (the code distinguishes the cases with Array.isArray). -/
inductive TypeField where
  | absent : TypeField
  | str : String → TypeField
  | arr : List String → TypeField
deriving DecidableEq, Repr

/-- Proof from src/src/types/interfaces.ts; sdJwt and jws are the custom
properties read by the SD-JWT and JWS suites. -/
structure Proof where
  type : Option String
  created : Option String
  verificationMethod : Option String
  proofPurpose : Option String
  proofValue : Option String
  sdJwt : Option String
  jws : Option String
deriving DecidableEq, Repr

/-- VerifiableCredential from src/src/types/interfaces.ts (the fields the
embedded code reads). -/
structure VerifiableCredential where
  id : Option String
  type : TypeField
  issuer : Option String
  issuanceDate : Option String
  credentialSubject : Option Claims
  proof : Option Proof
deriving DecidableEq, Repr

/-- Device authentication object from the mDoc crypto suite
(src/dist/src/crypto, unnamed part of the repository). -/
structure DeviceAuth where
  deviceKey : String
  sessionTranscript : String
  authSignature : String
deriving DecidableEq, Repr

/-- Reader authentication object from the mDoc crypto suite. -/
structure ReaderAuth where
  readerCertificate : String
  readerSignature : String
deriving DecidableEq, Repr

/-- mDoc payload carried by an mDL device response. -/
structure Mdoc where
  dataElements : Option (List (String × Claims))
deriving DecidableEq, Repr

/-- Device response substructure of an mDL presentation. -/
structure DeviceResponse where
  deviceAuth : Option DeviceAuth
  readerAuth : Option ReaderAuth
  mdoc : Option Mdoc
deriving DecidableEq, Repr

/-- VerifiablePresentation from src/src/types/interfaces.ts; deviceResponse
is the dynamic extension read by the mDL handler. The context field embeds
the at-context JSON-LD field. -/
structure VerifiablePresentation where
  context : Option (List String)
  type : TypeField
  verifiableCredential : Option (List VerifiableCredential)
  holder : Option String
  proof : Option Proof
  deviceResponse : Option DeviceResponse
deriving DecidableEq, Repr

/-- Requested credential descriptor inside a PresentationRequest. -/
structure RequestCredential where
  type : String
  required : Option Bool
deriving DecidableEq, Repr

/-- PresentationRequest from src/src/types/interfaces.ts. -/
structure PresentationRequest where
  id : String
  comment : Option String
  policies : Option (List String)
  request_credentials : List RequestCredential
  challenge : String
deriving DecidableEq, Repr

/-- The status union verified | rejected used both by handler results and by
the final VerificationResult. -/
inductive VStatus where
  | verified : VStatus
  | rejected : VStatus
deriving DecidableEq, Repr

/-- The result a format handler returns from its verify method. -/
structure HandlerResult where
  status : VStatus
  claims : Option Claims
  credentialType : Option String
  issuer : Option String
  holder : Option String
  error : Option String
deriving DecidableEq, Repr

/-- PolicyResult from src/src/types/interfaces.ts. -/
structure PolicyResult where
  compliant : Bool
  errors : Option (List String)
  details : Option String
deriving DecidableEq, Repr

/-- VerificationResult from src/src/types/interfaces.ts; policyResults is
an insertion-ordered string-keyed record. -/
structure VerificationResult where
  status : VStatus
  policyResults : Option (List (String × PolicyResult))
  error : Option String
deriving DecidableEq, Repr

/-- VerificationData assembled by the orchestrator for policy execution. -/
structure VerificationData where
  claims : Claims
  credentialType : String
  issuer : Option String
  holder : Option String
deriving DecidableEq, Repr

/-- The execute method of a policy; it may throw (Except.error). -/
abbrev Policy := VerificationData → Except String PolicyResult

/-- StatusResult from src/src/types/interfaces.ts. -/
structure StatusResult where
  active : Bool
  reason : Option String
deriving DecidableEq, Repr

/-- The CredentialHandler interface as the orchestrator sees it: a structural
predicate and a total verify method (the reference handlers catch all their
exceptions). The name field stands for constructor.name, used only in the
dispatch error message. -/
structure CredentialHandler where
  name : String
  canHandle : VerifiablePresentation → Bool
  verify : VerifiablePresentation → Option PresentationRequest → HandlerResult

/-- JavaScript truthiness of an optional string: absent and empty are falsy. -/
def jsStrTruthy : Option String → Bool
  | none => false
  | some s => !s.isEmpty

/-- JavaScript x or-else d on an optional string (the || operator): the
default is taken when x is absent or empty. -/
def jsOrStr (s : Option String) (d : String) : String :=
  match s with
  | none => d
  | some s => if s.isEmpty then d else s

/-- JavaScript truthiness of a dynamically typed type field: an array (even
empty) is truthy, a string is truthy when non-empty. -/
def jsTypeTruthy : TypeField → Bool
  | .absent => false
  | .str s => !s.isEmpty
  | .arr _ => true

/-- Assignment into a JavaScript string-keyed record: an existing key keeps
its position and gets the new value, a fresh key is appended. -/
def recordInsert (k : String) (v : α) : List (String × α) → List (String × α)
  | [] => [(k, v)]
  | (k2, v2) :: rest =>
      if k2 = k then (k, v) :: rest else (k2, v2) :: recordInsert k v rest

/-- First credential of a presentation: verifiableCredential?.[0]. -/
def firstCredential (p : VerifiablePresentation) : Option VerifiableCredential :=
  p.verifiableCredential.bind List.head?

/-- A rejected HandlerResult carrying only a status and an error message,
as the handlers build it. -/
def rejectedWith (e : String) : HandlerResult :=
  { status := .rejected, claims := none, credentialType := none,
    issuer := none, holder := none, error := some e }

/-! ## Crypto suites (src/src/crypto, mock implementations) -/

namespace ed25519Suite

/-- verifyProof of ed25519Suite: always passes (mock). -/
def verifyProof (_pr : Proof) : Bool := true

end ed25519Suite

namespace ecdsaR1Suite

/-- verifyProof of ecdsaR1Suite: passes iff the proof type matches. -/
def verifyProof (pr : Proof) : Bool :=
  pr.type == some "EcdsaSecp256r1Signature2019"

end ecdsaR1Suite

namespace ecdsaR2Suite

/-- verifyProof of ecdsaR2Suite: passes iff the proof type matches. -/
def verifyProof (pr : Proof) : Bool :=
  pr.type == some "EcdsaSecp256k1Signature2019"

end ecdsaR2Suite

namespace bbsSuite

/-- verifyProof of bbsSuite: passes iff the proof type matches. -/
def verifyProof (pr : Proof) : Bool :=
  pr.type == some "BbsBlsSignature2020"

end bbsSuite

namespace jwsSuite

/-- verifyProof of jwsSuite: type must match and the jws field be truthy. -/
def verifyProof (pr : Proof) : Bool :=
  pr.type == some "JsonWebSignature2020" && jsStrTruthy pr.jws

end jwsSuite

namespace sdJwtSuite

/-- verifyProof of sdJwtSuite: type must be SD-JWT and sdJwt be truthy. -/
def verifyProof (pr : Proof) : Bool :=
  pr.type == some "SD-JWT" && jsStrTruthy pr.sdJwt

end sdJwtSuite

namespace mdocDeviceAuthSuite

/-- verifyDeviceAuth: valid iff deviceKey and authSignature are truthy. -/
def verifyDeviceAuth (deviceAuth : DeviceAuth) : Bool :=
  !deviceAuth.deviceKey.isEmpty && !deviceAuth.authSignature.isEmpty

/-- verifyReaderAuth: valid iff certificate and signature are truthy. -/
def verifyReaderAuth (readerAuth : ReaderAuth) : Bool :=
  !readerAuth.readerCertificate.isEmpty && !readerAuth.readerSignature.isEmpty

end mdocDeviceAuthSuite

/-! ## W3C handler (src/src/handlers/w3c-handler.ts) -/

/-- A proof verifier as the handler invokes it: verifyProof may suspend and
throw, so it returns Except. -/
abbrev ProofVerifier := Proof → Except String Bool

/-- W3cHandler instance fields: the optional injected collaborators and the
private string-keyed cryptoSuites record built in the constructor. The DID
resolver receives the issuer string; the schema registry receives the first
element of an array type or the string type (possibly absent). -/
structure W3cHandler where
  didResolver : Option (String → Except String Unit)
  schemaRegistry : Option (Option String → Except String Unit)
  statusChecker : Option (VerifiableCredential → Except String StatusResult)
  cryptoSuites : List (String × ProofVerifier)

/-- The cryptoSuites record the W3cHandler constructor installs: all
supported W3C Data Integrity proof types mapped to their suites. -/
def W3cHandler.standardCryptoSuites : List (String × ProofVerifier) :=
  [("Ed25519Signature2020", fun pr => .ok (ed25519Suite.verifyProof pr)),
   ("Ed25519Signature2018", fun pr => .ok (ed25519Suite.verifyProof pr)),
   ("EcdsaSecp256r1Signature2019", fun pr => .ok (ecdsaR1Suite.verifyProof pr)),
   ("EcdsaSecp256k1Signature2019", fun pr => .ok (ecdsaR2Suite.verifyProof pr)),
   ("BbsBlsSignature2020", fun pr => .ok (bbsSuite.verifyProof pr)),
   ("JsonWebSignature2020", fun pr => .ok (jwsSuite.verifyProof pr))]

/-- W3cHandlerOptions: every collaborator is optional. -/
structure W3cHandlerOptions where
  didResolver : Option (String → Except String Unit)
  schemaRegistry : Option (Option String → Except String Unit)
  statusChecker : Option (VerifiableCredential → Except String StatusResult)

/-- The empty options object (constructor default). -/
def W3cHandlerOptions.empty : W3cHandlerOptions :=
  { didResolver := none, schemaRegistry := none, statusChecker := none }

/-- The W3cHandler constructor: copies the injected collaborators and
installs the standard cryptoSuites record. -/
def W3cHandler.new (options : W3cHandlerOptions) : W3cHandler :=
  { didResolver := options.didResolver,
    schemaRegistry := options.schemaRegistry,
    statusChecker := options.statusChecker,
    cryptoSuites := W3cHandler.standardCryptoSuites }

/-- W3cHandler.canHandle: the presentation has a truthy verifiableCredential,
or a truthy at-context field, or an array type containing
VerifiablePresentation. The instance fields are not consulted. -/
def W3cHandler.canHandle (_h : W3cHandler) (presentation : VerifiablePresentation) : Bool :=
  presentation.verifiableCredential.isSome ||
  presentation.context.isSome ||
  (match presentation.type with
   | .arr l => l.contains "VerifiablePresentation"
   | _ => false)

/-- The credentialType label built on W3C success: an array type is joined
with a comma, a string type falls back to VerifiableCredential when empty. -/
def credTypeLabel : TypeField → String
  | .arr l => String.intercalate ", " l
  | .str s => if s.isEmpty then "VerifiableCredential" else s
  | .absent => "VerifiableCredential"

/-- The argument the W3C handler passes to schemaRegistry.getSchema: the
first element of an array type, or the string type itself. -/
def schemaArg : TypeField → Option String
  | .arr l => l.head?
  | .str s => some s
  | .absent => none

/-- The body of W3cHandler.verify before its catch-all: each early return of
the source is a branch, a throw from a collaborator or suite is an error. -/
def W3cHandler.verifyRaw (h : W3cHandler) (presentation : VerifiablePresentation)
    (_originalRequest : Option PresentationRequest) : Except String HandlerResult :=
  match firstCredential presentation with
  | none => .ok (rejectedWith "No verifiable credential")
  | some credential =>
    let statusStep : Except String (Option HandlerResult) :=
      match h.statusChecker with
      | none => .ok none
      | some checkStatus =>
        match checkStatus credential with
        | .error e => .error e
        | .ok statusResult =>
          if statusResult.active then .ok none
          else .ok (some (rejectedWith (jsOrStr statusResult.reason "Credential revoked or suspended")))
    match statusStep with
    | .error e => .error e
    | .ok (some r) => .ok r
    | .ok none =>
      match credential.proof with
      | none => .ok (rejectedWith "No proof found")
      | some proof =>
        match proof.type with
        | none => .ok (rejectedWith "Proof type not specified")
        | some ptype =>
          if ptype.isEmpty then .ok (rejectedWith "Proof type not specified")
          else
            match List.lookup ptype h.cryptoSuites with
            | none => .ok (rejectedWith ("Unsupported proof type: " ++ ptype))
            | some cryptoSuite =>
              let resolverStep : Except String Unit :=
                match h.didResolver, credential.issuer with
                | some resolve, some issuer =>
                    if issuer.isEmpty then .ok () else (resolve issuer).map (fun _ => ())
                | _, _ => .ok ()
              match resolverStep with
              | .error e => .error e
              | .ok _ =>
                let schemaStep : Except String Unit :=
                  match h.schemaRegistry with
                  | some getSchema =>
                      if jsTypeTruthy credential.type
                      then (getSchema (schemaArg credential.type)).map (fun _ => ())
                      else .ok ()
                  | none => .ok ()
                match schemaStep with
                | .error e => .error e
                | .ok _ =>
                  match cryptoSuite proof with
                  | .error e => .error e
                  | .ok true =>
                    .ok { status := .verified,
                          claims := some (credential.credentialSubject.getD []),
                          credentialType := some (credTypeLabel credential.type),
                          issuer := credential.issuer,
                          holder := presentation.holder,
                          error := none }
                  | .ok false => .ok (rejectedWith "Proof verification failed")

/-- W3cHandler.verify: the catch-all converts every thrown error into a
rejected HandlerResult carrying the message. -/
def W3cHandler.verify (h : W3cHandler) (presentation : VerifiablePresentation)
    (originalRequest : Option PresentationRequest) : HandlerResult :=
  match W3cHandler.verifyRaw h presentation originalRequest with
  | .ok r => r
  | .error m => rejectedWith m

/-! ## mDL handler (src/dist/src/handlers/mobile-license.js) -/

/-- MdlHandler instance fields: the reader-auth configuration flag and the
crypto suite methods installed by the constructor (calls may throw). -/
structure MdlHandler where
  enableReaderAuth : Bool
  verifyDeviceAuth : DeviceAuth → Except String Bool
  verifyReaderAuth : ReaderAuth → Except String Bool

/-- The MdlHandler constructor: enableReaderAuth defaults to true and the
mdoc device-auth suite is installed. -/
def MdlHandler.new (enableReaderAuthOption : Option Bool) : MdlHandler :=
  { enableReaderAuth := enableReaderAuthOption.getD true,
    verifyDeviceAuth := fun da => .ok (mdocDeviceAuthSuite.verifyDeviceAuth da),
    verifyReaderAuth := fun ra => .ok (mdocDeviceAuthSuite.verifyReaderAuth ra) }

/-- MdlHandler.canHandle: a truthy deviceResponse or a string type mDL. -/
def MdlHandler.canHandle (_h : MdlHandler) (presentation : VerifiablePresentation) : Bool :=
  presentation.deviceResponse.isSome || presentation.type == .str "mDL"

/-- The body of MdlHandler.verify before its catch-all. -/
def MdlHandler.verifyRaw (h : MdlHandler) (presentation : VerifiablePresentation)
    (_originalRequest : Option PresentationRequest) : Except String HandlerResult :=
  match presentation.deviceResponse with
  | none => .ok (rejectedWith "No device response")
  | some deviceResponse =>
    match deviceResponse.deviceAuth with
    | none => .ok (rejectedWith "No device authentication")
    | some deviceAuth =>
      match h.verifyDeviceAuth deviceAuth with
      | .error e => .error e
      | .ok false => .ok (rejectedWith "Device authentication failed")
      | .ok true =>
        let readerStep : Except String (Option HandlerResult) :=
          match deviceResponse.readerAuth with
          | some readerAuth =>
            if h.enableReaderAuth then
              match h.verifyReaderAuth readerAuth with
              | .error e => .error e
              | .ok false => .ok (some (rejectedWith "Reader authentication failed"))
              | .ok true => .ok none
            else .ok none
          | none => .ok none
        match readerStep with
        | .error e => .error e
        | .ok (some r) => .ok r
        | .ok none =>
          match deviceResponse.mdoc with
          | none => .ok (rejectedWith "No mDoc data")
          | some mdoc =>
            match mdoc.dataElements with
            | none => .ok (rejectedWith "No data elements")
            | some dataElements =>
              if dataElements.isEmpty then .ok (rejectedWith "No data elements")
              else
                .ok { status := .verified,
                      claims := some ((List.lookup "org.iso.18013.5.1" dataElements).getD []),
                      credentialType := some "mDL",
                      issuer := some "mDL Device",
                      holder := some "mDL Holder",
                      error := none }

/-- MdlHandler.verify with its catch-all. -/
def MdlHandler.verify (h : MdlHandler) (presentation : VerifiablePresentation)
    (originalRequest : Option PresentationRequest) : HandlerResult :=
  match MdlHandler.verifyRaw h presentation originalRequest with
  | .ok r => r
  | .error m => rejectedWith m

/-! ## SD-JWT handler (src/src/handlers/sd-jwt-handler.ts) -/

/-- SdJwtHandler instance fields: the crypto suite installed by the
constructor. -/
structure SdJwtHandler where
  cryptoSuite : ProofVerifier

/-- The SdJwtHandler constructor installs sdJwtSuite. -/
def SdJwtHandler.new : SdJwtHandler :=
  { cryptoSuite := fun pr => .ok (sdJwtSuite.verifyProof pr) }

/-- SdJwtHandler.canHandle: the presentation carries a proof whose type is
SD-JWT and which has an sdJwt property. -/
def SdJwtHandler.canHandle (_h : SdJwtHandler) (presentation : VerifiablePresentation) : Bool :=
  match presentation.proof with
  | none => false
  | some proof => proof.type == some "SD-JWT" && proof.sdJwt.isSome

/-- The body of SdJwtHandler.verify before its catch-all. -/
def SdJwtHandler.verifyRaw (h : SdJwtHandler) (presentation : VerifiablePresentation)
    (_originalRequest : Option PresentationRequest) : Except String HandlerResult :=
  match presentation.proof with
  | none => .ok (rejectedWith "No SD-JWT proof found")
  | some proof =>
    if proof.type != some "SD-JWT" || !proof.sdJwt.isSome then
      .ok (rejectedWith "No SD-JWT proof found")
    else
      match h.cryptoSuite proof with
      | .error e => .error e
      | .ok true =>
        .ok { status := .verified,
              claims := some (((firstCredential presentation).bind
                VerifiableCredential.credentialSubject).getD []),
              credentialType := some "SD-JWT",
              issuer := (firstCredential presentation).bind VerifiableCredential.issuer,
              holder := presentation.holder,
              error := none }
      | .ok false => .ok (rejectedWith "SD-JWT proof verification failed")

/-- SdJwtHandler.verify with its catch-all. -/
def SdJwtHandler.verify (h : SdJwtHandler) (presentation : VerifiablePresentation)
    (originalRequest : Option PresentationRequest) : HandlerResult :=
  match SdJwtHandler.verifyRaw h presentation originalRequest with
  | .ok r => r
  | .error m => rejectedWith m

/-! ## Orchestrator (src/src/core/index.ts, VerifierImpl.verify) -/

/-- Handler dispatch: this.handlers.find of the first handler whose
canHandle accepts the presentation. -/
def dispatch (handlers : List CredentialHandler) (presentation : VerifiablePresentation) :
    Option CredentialHandler :=
  handlers.find? (fun h => h.canHandle presentation)

/-- The requested policy names: originalRequest?.policies or the empty
list. -/
def requestedPoliciesOf (originalRequest : Option PresentationRequest) : List String :=
  (originalRequest.bind PresentationRequest.policies).getD []

/-- The VerificationData the orchestrator builds from a HandlerResult:
claims default to the empty mapping, credentialType to Unknown. -/
def verificationDataOf (handlerResult : HandlerResult) : VerificationData :=
  { claims := handlerResult.claims.getD [],
    credentialType := jsOrStr handlerResult.credentialType "Unknown",
    issuer := handlerResult.issuer,
    holder := handlerResult.holder }

/-- The policy loop of VerifierImpl.verify: for each requested name, look
the policy up; a found policy is executed (a throw aborts the whole call,
the source has no catch here) and its result assigned into the record; a
missing name is skipped with a warning. -/
def runPoliciesAux (policies : List (String × Policy)) (names : List String)
    (verificationData : VerificationData) (acc : List (String × PolicyResult)) :
    Except String (List (String × PolicyResult)) :=
  match names with
  | [] => .ok acc
  | policyName :: rest =>
    match List.lookup policyName policies with
    | some policy =>
      match policy verificationData with
      | .error e => .error e
      | .ok r => runPoliciesAux policies rest verificationData (recordInsert policyName r acc)
    | none => runPoliciesAux policies rest verificationData acc

/-- The policy loop started on the empty record. -/
def runPolicies (policies : List (String × Policy)) (names : List String)
    (verificationData : VerificationData) : Except String (List (String × PolicyResult)) :=
  runPoliciesAux policies names verificationData []

/-- The message of the error thrown when no handler matches: it lists the
constructor names of the available handlers, or None. -/
def noHandlerMessage (handlers : List CredentialHandler) : String :=
  let supportedTypes := String.intercalate ", " (handlers.map CredentialHandler.name)
  "No suitable handler found for the presentation format. Available handlers: " ++
    (if supportedTypes.isEmpty then "None" else supportedTypes)

/-- VerifierImpl.verify. The presentation argument is always a value here,
so the initial no-presentation guard of the source cannot fire. A thrown
error (no matching handler, or a policy throw) is the Except.error channel,
distinct from every returned VerificationResult. -/
def VerifierImpl.verify (handlers : List CredentialHandler)
    (policies : List (String × Policy)) (presentation : VerifiablePresentation)
    (originalRequest : Option PresentationRequest) : Except String VerificationResult :=
  match dispatch handlers presentation with
  | none => .error (noHandlerMessage handlers)
  | some handler =>
    let handlerResult := handler.verify presentation originalRequest
    if handlerResult.status = .rejected then
      .ok { status := .rejected, policyResults := none,
            error := some (jsOrStr handlerResult.error "Cryptographic verification failed") }
    else
      let requestedPolicies := requestedPoliciesOf originalRequest
      let policyRun :=
        if 0 < requestedPolicies.length then
          runPolicies policies requestedPolicies (verificationDataOf handlerResult)
        else .ok []
      match policyRun with
      | .error e => .error e
      | .ok policyResults =>
        let allPoliciesCompliant := policyResults.all (fun r => r.2.compliant)
        if !allPoliciesCompliant then
          .ok { status := .rejected, policyResults := some policyResults,
                error := some "Policy compliance check failed" }
        else
          .ok { status := .verified,
                policyResults := if 0 < policyResults.length then some policyResults else none,
                error := none }

/-! ## Supporting lemmas -/

/-- List.find? returns the first satisfying element: the list splits into a
failing prefix, the found element, and a suffix. -/
lemma find?_first_split {α : Type} (p : α → Bool) :
    ∀ (l : List α) (a : α), l.find? p = some a →
      p a = true ∧ ∃ pre post, l = pre ++ a :: post ∧ ∀ x ∈ pre, p x = false := by
  intro l
  induction l with
  | nil => intro a h; simp [List.find?] at h
  | cons hd tl ih =>
    intro a h
    cases hp : p hd with
    | true =>
      rw [List.find?_cons_of_pos _ hp] at h
      cases h
      exact ⟨hp, [], tl, rfl, by simp⟩
    | false =>
      rw [List.find?_cons_of_neg _ (by simp [hp])] at h
      obtain ⟨ha, pre, post, heq, hpre⟩ := ih a h
      exact ⟨ha, hd :: pre, post, by simp [heq], by
        intro x hx
        rcases List.mem_cons.mp hx with rfl | hx
        · exact hp
        · exact hpre x hx⟩

/-- Looking up a key different from the inserted one is unchanged. -/
lemma lookup_recordInsert_ne {α : Type} (k n : String) (v : α)
    (m : List (String × α)) (hne : n ≠ k) :
    List.lookup n (recordInsert k v m) = List.lookup n m := by
  induction m with
  | nil => simp [recordInsert, List.lookup, beq_eq_false_iff_ne.mpr hne]
  | cons hd tl ih =>
    obtain ⟨k2, v2⟩ := hd
    by_cases hk : k2 = k
    · subst hk
      simp [recordInsert, List.lookup, beq_eq_false_iff_ne.mpr hne]
    · simp only [recordInsert, if_neg hk, List.lookup]
      cases hnk : n == k2 <;> simp [ih]

/-- A name with no registered policy never appears in the record the policy
loop produces beyond what the accumulator already held. -/
lemma runPoliciesAux_lookup_none (policies : List (String × Policy))
    (verificationData : VerificationData) :
    ∀ (names : List String) (acc prs : List (String × PolicyResult)) (n : String),
      runPoliciesAux policies names verificationData acc = .ok prs →
      List.lookup n policies = none →
      List.lookup n prs = List.lookup n acc := by
  intro names
  induction names with
  | nil =>
    intro acc prs n h _
    simp only [runPoliciesAux] at h
    cases h
    rfl
  | cons policyName rest ih =>
    intro acc prs n h hn
    simp only [runPoliciesAux] at h
    cases hlk : List.lookup policyName policies with
    | none =>
      simp only [hlk] at h
      exact ih acc prs n h hn
    | some policy =>
      simp only [hlk] at h
      cases hex : policy verificationData with
      | error e => simp [hex] at h
      | ok r =>
        simp only [hex] at h
        have hne : n ≠ policyName := by
          intro heq
          rw [heq, hlk] at hn
          cases hn
        calc List.lookup n prs
            = List.lookup n (recordInsert policyName r acc) := ih _ prs n h hn
          _ = List.lookup n acc := lookup_recordInsert_ne _ _ _ _ hne

/-- The guard around the policy loop is redundant: with zero requested
policies the loop itself already yields the empty record. -/
lemma policyRun_guard_eq (policies : List (String × Policy)) (names : List String)
    (verificationData : VerificationData) :
    (if 0 < names.length then runPolicies policies names verificationData else .ok []) =
      runPolicies policies names verificationData := by
  cases names <;> simp [runPolicies, runPoliciesAux]

/-- When the selected handler rejects, verify returns the rejected result
built only from the handler error, independent of the policy registry. -/
lemma verify_handler_rejected (handlers : List CredentialHandler)
    (policies : List (String × Policy)) (presentation : VerifiablePresentation)
    (originalRequest : Option PresentationRequest) (h : CredentialHandler)
    (hdisp : dispatch handlers presentation = some h)
    (hst : (h.verify presentation originalRequest).status = .rejected) :
    VerifierImpl.verify handlers policies presentation originalRequest =
      .ok { status := .rejected, policyResults := none,
            error := some (jsOrStr (h.verify presentation originalRequest).error
              "Cryptographic verification failed") } := by
  simp only [VerifierImpl.verify, hdisp, hst, if_pos]

/-- Full characterization of verify once the dispatched handler and the
policy-loop outcome are fixed. -/
lemma verify_characterization (handlers : List CredentialHandler)
    (policies : List (String × Policy)) (presentation : VerifiablePresentation)
    (originalRequest : Option PresentationRequest) (h : CredentialHandler)
    (prs : List (String × PolicyResult))
    (hdisp : dispatch handlers presentation = some h)
    (hrun : runPolicies policies (requestedPoliciesOf originalRequest)
      (verificationDataOf (h.verify presentation originalRequest)) = .ok prs) :
    VerifierImpl.verify handlers policies presentation originalRequest =
      if (h.verify presentation originalRequest).status = .rejected then
        .ok { status := .rejected, policyResults := none,
              error := some (jsOrStr (h.verify presentation originalRequest).error
                "Cryptographic verification failed") }
      else if prs.all (fun r => r.2.compliant) then
        .ok { status := .verified,
              policyResults := if 0 < prs.length then some prs else none,
              error := none }
      else
        .ok { status := .rejected, policyResults := some prs,
              error := some "Policy compliance check failed" } := by
  by_cases hst : (h.verify presentation originalRequest).status = .rejected
  · rw [if_pos hst]
    exact verify_handler_rejected _ _ _ _ _ hdisp hst
  · rw [if_neg hst]
    simp only [VerifierImpl.verify, hdisp]
    rw [if_neg hst, policyRun_guard_eq, hrun]
    cases hall : prs.all (fun r => r.2.compliant) <;> simp [hall]

/-- Barring a rejected handler status, the handler status is verified. -/
lemma status_not_rejected (s : VStatus) (h : ¬s = .rejected) : s = .verified := by
  cases s
  · rfl
  · exact absurd rfl h

/-! ## Concrete fixtures used by the witnesses -/

/-- A handler result that always verifies, with a birthdate claim. -/
def alwaysVerifiedResult : HandlerResult :=
  { status := .verified, claims := some [("birthdate", "1990-01-01")],
    credentialType := some "TestCredential", issuer := some "did:example:issuer",
    holder := some "did:example:holder", error := none }

/-- A handler accepting every presentation and verifying it. -/
def acceptAllHandler : CredentialHandler :=
  { name := "AcceptAllHandler", canHandle := fun _ => true,
    verify := fun _ _ => alwaysVerifiedResult }

/-- A handler that accepts nothing. -/
def declineAllHandler : CredentialHandler :=
  { name := "DeclineAllHandler", canHandle := fun _ => false,
    verify := fun _ _ => rejectedWith "unreachable" }

/-- A handler accepting everything and rejecting it on verification. -/
def rejectingHandler : CredentialHandler :=
  { name := "RejectingHandler", canHandle := fun _ => true,
    verify := fun _ _ => rejectedWith "Proof verification failed" }

/-- A presentation with every field absent. -/
def emptyPresentation : VerifiablePresentation :=
  { context := none, type := .absent, verifiableCredential := none,
    holder := none, proof := none, deviceResponse := none }

/-- A compliant policy result. -/
def okPolicyResult : PolicyResult := { compliant := true, errors := none, details := none }

/-- A policy that always complies. -/
def compliantPolicy : Policy := fun _ => .ok okPolicyResult

/-- A policy whose execute throws. -/
def throwingPolicy : Policy := fun _ => .error "policy exploded"

/-- A request naming the given policies. -/
def requestWith (names : List String) : PresentationRequest :=
  { id := "req-1", comment := none, policies := some names,
    request_credentials := [], challenge := "challenge-1" }

/-! ## Claims -/

/-- C1: whenever dispatch succeeds and the orchestrator returns a
VerificationResult, its status is verified exactly when the selected
handler returned verified and every executed policy result is compliant;
with zero executed policies the conjunction is vacuously true. -/
theorem C1_verified_iff_handler_verified_and_policies_compliant
    (handlers : List CredentialHandler) (pols : List (String × Policy))
    (p : VerifiablePresentation) (req : Option PresentationRequest)
    (h : CredentialHandler) (prs : List (String × PolicyResult)) (res : VerificationResult)
    (hdisp : dispatch handlers p = some h)
    (hrun : runPolicies pols (requestedPoliciesOf req)
      (verificationDataOf (h.verify p req)) = .ok prs)
    (hok : VerifierImpl.verify handlers pols p req = .ok res) :
    res.status = .verified ↔
      ((h.verify p req).status = .verified ∧ prs.all (fun r => r.2.compliant) = true) := by
  have hchar := verify_characterization handlers pols p req h prs hdisp hrun
  rw [hok] at hchar
  by_cases hst : (h.verify p req).status = .rejected
  · rw [if_pos hst] at hchar
    injection hchar with hres
    subst hres
    simp [hst]
  · have hst' := status_not_rejected _ hst
    rw [if_neg hst] at hchar
    cases hall : prs.all (fun r => r.2.compliant) with
    | false =>
      simp only [hall] at hchar
      injection hchar with hres
      subst hres
      simp [hall]
    | true =>
      simp only [hall] at hchar
      injection hchar with hres
      subst hres
      simp [hst', hall]

/-- C1 witness: one handler, one compliant requested policy, overall
verified. -/
theorem C1_witness :
    dispatch [acceptAllHandler] emptyPresentation = some acceptAllHandler ∧
    runPolicies [("ok_policy", compliantPolicy)]
      (requestedPoliciesOf (some (requestWith ["ok_policy"])))
      (verificationDataOf (acceptAllHandler.verify emptyPresentation
        (some (requestWith ["ok_policy"])))) = .ok [("ok_policy", okPolicyResult)] ∧
    VerifierImpl.verify [acceptAllHandler] [("ok_policy", compliantPolicy)]
      emptyPresentation (some (requestWith ["ok_policy"])) =
      .ok { status := .verified, policyResults := some [("ok_policy", okPolicyResult)],
            error := none } ∧
    ((VerificationResult.mk .verified (some [("ok_policy", okPolicyResult)]) none).status =
        .verified ↔
      ((acceptAllHandler.verify emptyPresentation
        (some (requestWith ["ok_policy"]))).status = .verified ∧
        ([("ok_policy", okPolicyResult)].all (fun r => r.2.compliant)) = true)) :=
  ⟨rfl, rfl, rfl,
    C1_verified_iff_handler_verified_and_policies_compliant
      [acceptAllHandler] [("ok_policy", compliantPolicy)] emptyPresentation
      (some (requestWith ["ok_policy"])) acceptAllHandler
      [("ok_policy", okPolicyResult)]
      (VerificationResult.mk .verified (some [("ok_policy", okPolicyResult)]) none)
      rfl rfl rfl⟩

/-- C2: dispatch selects exactly the first handler in registration order
whose canHandle accepts the presentation (the registration list splits into
a failing prefix, the selected handler and a suffix), and with no matching
handler, verify throws the dispatch error instead of returning any
VerificationResult. -/
theorem C2_first_match_dispatch_or_fatal_error
    (handlers : List CredentialHandler) (pols : List (String × Policy))
    (p : VerifiablePresentation) (req : Option PresentationRequest) :
    ((∀ h2 ∈ handlers, h2.canHandle p = false) →
      VerifierImpl.verify handlers pols p req = .error (noHandlerMessage handlers)) ∧
    (∀ h, dispatch handlers p = some h →
      h.canHandle p = true ∧
      ∃ pre post, handlers = pre ++ h :: post ∧ ∀ h2 ∈ pre, h2.canHandle p = false) := by
  constructor
  · intro hall
    have hnone : dispatch handlers p = none := by
      rw [dispatch, List.find?_eq_none]
      intro x hx
      simp [hall x hx]
    simp [VerifierImpl.verify, hnone]
  · intro h hdisp
    exact find?_first_split _ handlers h hdisp

/-- C2 witness: the empty handler list throws, and in a two-handler list the
first matching handler is selected past a non-matching prefix. -/
theorem C2_witness :
    VerifierImpl.verify [] [] emptyPresentation none = .error (noHandlerMessage []) ∧
    (acceptAllHandler.canHandle emptyPresentation = true ∧
      ∃ pre post, [declineAllHandler, acceptAllHandler] = pre ++ acceptAllHandler :: post ∧
        ∀ h2 ∈ pre, h2.canHandle emptyPresentation = false) :=
  ⟨(C2_first_match_dispatch_or_fatal_error [] [] emptyPresentation none).1 (by simp),
   (C2_first_match_dispatch_or_fatal_error [declineAllHandler, acceptAllHandler] []
      emptyPresentation none).2 acceptAllHandler rfl⟩

/-- C4: a rejected handler result short-circuits: the orchestrator returns
a rejected VerificationResult whose policyResults field is absent, and the
outcome is independent of the policy registry (no policy is consulted or
executed). -/
theorem C4_handler_rejection_short_circuits
    (handlers : List CredentialHandler) (pols pols2 : List (String × Policy))
    (p : VerifiablePresentation) (req : Option PresentationRequest) (h : CredentialHandler)
    (hdisp : dispatch handlers p = some h)
    (hst : (h.verify p req).status = .rejected) :
    VerifierImpl.verify handlers pols p req =
      .ok { status := .rejected, policyResults := none,
            error := some (jsOrStr (h.verify p req).error "Cryptographic verification failed") } ∧
    VerifierImpl.verify handlers pols p req = VerifierImpl.verify handlers pols2 p req := by
  refine ⟨verify_handler_rejected _ _ _ _ _ hdisp hst, ?_⟩
  rw [verify_handler_rejected _ pols _ _ _ hdisp hst,
    verify_handler_rejected _ pols2 _ _ _ hdisp hst]

/-- C4 witness: a rejecting handler with a populated and with an empty
policy registry. -/
theorem C4_witness :
    VerifierImpl.verify [rejectingHandler] [("ok_policy", compliantPolicy)]
      emptyPresentation (some (requestWith ["ok_policy"])) =
      .ok { status := .rejected, policyResults := none,
            error := some (jsOrStr (rejectedWith "Proof verification failed").error
              "Cryptographic verification failed") } ∧
    VerifierImpl.verify [rejectingHandler] [("ok_policy", compliantPolicy)]
      emptyPresentation (some (requestWith ["ok_policy"])) =
      VerifierImpl.verify [rejectingHandler] [] emptyPresentation
        (some (requestWith ["ok_policy"])) :=
  C4_handler_rejection_short_circuits [rejectingHandler]
    [("ok_policy", compliantPolicy)] [] emptyPresentation
    (some (requestWith ["ok_policy"])) rejectingHandler rfl rfl

/-- C5: a requested policy name with no registered policy is omitted from
the executed-policy record without failing the request; the returned
policyResults field is the executed record or absent; and when every
executed policy is compliant a verified handler result stays verified. -/
theorem C5_missing_policy_names_omitted
    (handlers : List CredentialHandler) (pols : List (String × Policy))
    (p : VerifiablePresentation) (req : Option PresentationRequest)
    (h : CredentialHandler) (prs : List (String × PolicyResult)) (res : VerificationResult)
    (hdisp : dispatch handlers p = some h)
    (hrun : runPolicies pols (requestedPoliciesOf req)
      (verificationDataOf (h.verify p req)) = .ok prs)
    (hok : VerifierImpl.verify handlers pols p req = .ok res) :
    (∀ n, List.lookup n pols = none → List.lookup n prs = none) ∧
    (res.policyResults = none ∨ res.policyResults = some prs) ∧
    ((h.verify p req).status = .verified → prs.all (fun r => r.2.compliant) = true →
      res.status = .verified) := by
  have hchar := verify_characterization handlers pols p req h prs hdisp hrun
  rw [hok] at hchar
  refine ⟨?_, ?_, ?_⟩
  · intro n hn
    have := runPoliciesAux_lookup_none pols _ (requestedPoliciesOf req) [] prs n hrun hn
    simpa [List.lookup] using this
  · by_cases hst : (h.verify p req).status = .rejected
    · rw [if_pos hst] at hchar
      injection hchar with hres
      subst hres
      left
      rfl
    · rw [if_neg hst] at hchar
      cases hall : prs.all (fun r => r.2.compliant) with
      | false =>
        simp only [hall] at hchar
        injection hchar with hres
        subst hres
        right
        rfl
      | true =>
        simp only [hall] at hchar
        injection hchar with hres
        subst hres
        by_cases hlen : 0 < prs.length
        · right
          simp [hlen]
        · left
          simp [hlen]
  · intro hv hall
    rw [if_neg (by simp [hv]), if_pos hall] at hchar
    injection hchar with hres
    subst hres
    rfl

/-- C5 witness: a mixed present-and-missing request stays verified and the
missing name is absent from the executed record. -/
theorem C5_witness :
    List.lookup "missing_policy" [("present_policy", okPolicyResult)] = none ∧
    VerifierImpl.verify [acceptAllHandler] [("present_policy", compliantPolicy)]
      emptyPresentation (some (requestWith ["present_policy", "missing_policy"])) =
      .ok { status := .verified,
            policyResults := some [("present_policy", okPolicyResult)], error := none } ∧
    (VerificationResult.mk .verified (some [("present_policy", okPolicyResult)]) none).status =
      .verified :=
  ⟨(C5_missing_policy_names_omitted [acceptAllHandler]
      [("present_policy", compliantPolicy)] emptyPresentation
      (some (requestWith ["present_policy", "missing_policy"])) acceptAllHandler
      [("present_policy", okPolicyResult)]
      (VerificationResult.mk .verified (some [("present_policy", okPolicyResult)]) none)
      rfl rfl rfl).1 "missing_policy" rfl,
   rfl,
   (C5_missing_policy_names_omitted [acceptAllHandler]
      [("present_policy", compliantPolicy)] emptyPresentation
      (some (requestWith ["present_policy", "missing_policy"])) acceptAllHandler
      [("present_policy", okPolicyResult)]
      (VerificationResult.mk .verified (some [("present_policy", okPolicyResult)]) none)
      rfl rfl rfl).2.2 rfl rfl⟩

/-- C9: the orchestrator pipeline is deterministic: with the registries and
inputs fixed, two calls produce identical VerificationResult values. The
embedding is a pure function of the presentation, the request and the two
registries because the source verify mutates no state and consults nothing
besides its arguments and the injected handlers and policies, which the
claim holds fixed. -/
theorem C9_verify_deterministic
    (handlers : List CredentialHandler) (pols : List (String × Policy))
    (p : VerifiablePresentation) (req : Option PresentationRequest) :
    VerifierImpl.verify handlers pols p req = VerifierImpl.verify handlers pols p req := rfl

/-- C3 (evidence of the code bug): the policy loop of VerifierImpl.verify
has no per-policy catch, so a policy whose execute throws aborts the whole
call: the exception propagates to the caller on the thrown channel, the
remaining requested policy is never executed and no VerificationResult is
returned, contrary to the PolicyExecutionError contract of the spec. -/
theorem C3_policy_throw_escapes_orchestrator :
    VerifierImpl.verify [acceptAllHandler]
      [("boom", throwingPolicy), ("ok_policy", compliantPolicy)]
      emptyPresentation (some (requestWith ["boom", "ok_policy"])) =
      .error "policy exploded" := rfl

/-- C6: the verify method of each reference handler is total: it either returns the
result of its body, or its body throws and the catch-all converts the
thrown message into a rejected HandlerResult; in no case does an exception
escape to the orchestrator. The collaborator and suite fields range over
arbitrary throwing implementations. -/
theorem C6_handler_verify_never_throws
    (hw : W3cHandler) (hm : MdlHandler) (hs : SdJwtHandler)
    (p : VerifiablePresentation) (req : Option PresentationRequest) :
    ((∃ r, W3cHandler.verifyRaw hw p req = .ok r ∧ hw.verify p req = r) ∨
      (∃ m, W3cHandler.verifyRaw hw p req = .error m ∧ hw.verify p req = rejectedWith m)) ∧
    ((∃ r, MdlHandler.verifyRaw hm p req = .ok r ∧ hm.verify p req = r) ∨
      (∃ m, MdlHandler.verifyRaw hm p req = .error m ∧ hm.verify p req = rejectedWith m)) ∧
    ((∃ r, SdJwtHandler.verifyRaw hs p req = .ok r ∧ hs.verify p req = r) ∨
      (∃ m, SdJwtHandler.verifyRaw hs p req = .error m ∧ hs.verify p req = rejectedWith m)) := by
  refine ⟨?_, ?_, ?_⟩
  · cases hr : W3cHandler.verifyRaw hw p req with
    | ok r => exact Or.inl ⟨r, rfl, by simp [W3cHandler.verify, hr]⟩
    | error m => exact Or.inr ⟨m, rfl, by simp [W3cHandler.verify, hr]⟩
  · cases hr : MdlHandler.verifyRaw hm p req with
    | ok r => exact Or.inl ⟨r, rfl, by simp [MdlHandler.verify, hr]⟩
    | error m => exact Or.inr ⟨m, rfl, by simp [MdlHandler.verify, hr]⟩
  · cases hr : SdJwtHandler.verifyRaw hs p req with
    | ok r => exact Or.inl ⟨r, rfl, by simp [SdJwtHandler.verify, hr]⟩
    | error m => exact Or.inr ⟨m, rfl, by simp [SdJwtHandler.verify, hr]⟩

/-- C7: the mDL handler applies its sub-checks in order with a specific
rejection message per failed check; the reader-auth check runs only when a
readerAuth object is present and reader authentication is enabled, and with
it disabled the reader-auth suite is never consulted and verification can
still succeed. -/
theorem C7_mdl_subcheck_order_and_messages
    (m : MdlHandler) (p : VerifiablePresentation) (req : Option PresentationRequest) :
    (p.deviceResponse = none → m.verify p req = rejectedWith "No device response") ∧
    (∀ dr, p.deviceResponse = some dr → dr.deviceAuth = none →
      m.verify p req = rejectedWith "No device authentication") ∧
    (∀ dr da, p.deviceResponse = some dr → dr.deviceAuth = some da →
      m.verifyDeviceAuth da = .ok false →
      m.verify p req = rejectedWith "Device authentication failed") ∧
    (∀ dr da ra, p.deviceResponse = some dr → dr.deviceAuth = some da →
      m.verifyDeviceAuth da = .ok true → dr.readerAuth = some ra →
      m.enableReaderAuth = true → m.verifyReaderAuth ra = .ok false →
      m.verify p req = rejectedWith "Reader authentication failed") ∧
    (∀ dr da mdoc, p.deviceResponse = some dr → dr.deviceAuth = some da →
      m.verifyDeviceAuth da = .ok true →
      (dr.readerAuth = none ∨ m.enableReaderAuth = false) →
      dr.mdoc = some mdoc →
      (mdoc.dataElements = none ∨ mdoc.dataElements = some []) →
      m.verify p req = rejectedWith "No data elements") ∧
    (∀ f, m.enableReaderAuth = false →
      MdlHandler.verify { m with verifyReaderAuth := f } p req = m.verify p req) ∧
    (∀ dr da mdoc els, p.deviceResponse = some dr → dr.deviceAuth = some da →
      m.verifyDeviceAuth da = .ok true → m.enableReaderAuth = false →
      dr.mdoc = some mdoc → mdoc.dataElements = some els → els ≠ [] →
      (m.verify p req).status = .verified) := by
  refine ⟨?_, ?_, ?_, ?_, ?_, ?_, ?_⟩
  · intro hdr
    simp [MdlHandler.verify, MdlHandler.verifyRaw, hdr]
  · intro dr hdr hda
    simp [MdlHandler.verify, MdlHandler.verifyRaw, hdr, hda]
  · intro dr da hdr hda hvd
    simp [MdlHandler.verify, MdlHandler.verifyRaw, hdr, hda, hvd]
  · intro dr da ra hdr hda hvd hra hre hvr
    simp [MdlHandler.verify, MdlHandler.verifyRaw, hdr, hda, hvd, hra, hre, hvr]
  · intro dr da mdoc hdr hda hvd hskip hmd hde
    rcases hskip with hra | hre
    · rcases hde with hde | hde <;>
        simp [MdlHandler.verify, MdlHandler.verifyRaw, hdr, hda, hvd, hra, hmd, hde]
    · cases hra : dr.readerAuth <;> rcases hde with hde | hde <;>
        simp [MdlHandler.verify, MdlHandler.verifyRaw, hdr, hda, hvd, hra, hre, hmd, hde]
  · intro f hre
    cases hdr : p.deviceResponse with
    | none => simp [MdlHandler.verify, MdlHandler.verifyRaw, hdr]
    | some dr =>
      cases hda : dr.deviceAuth with
      | none => simp [MdlHandler.verify, MdlHandler.verifyRaw, hdr, hda]
      | some da =>
        cases hvd : m.verifyDeviceAuth da with
        | error e => simp [MdlHandler.verify, MdlHandler.verifyRaw, hdr, hda, hvd]
        | ok b =>
          cases b with
          | false => simp [MdlHandler.verify, MdlHandler.verifyRaw, hdr, hda, hvd]
          | true =>
            cases hra : dr.readerAuth with
            | none => simp [MdlHandler.verify, MdlHandler.verifyRaw, hdr, hda, hvd, hra]
            | some ra =>
              simp [MdlHandler.verify, MdlHandler.verifyRaw, hdr, hda, hvd, hra, hre]
  · intro dr da mdoc els hdr hda hvd hre hmd hels hne
    cases hra : dr.readerAuth with
    | none =>
      cases els with
      | nil => exact absurd rfl hne
      | cons e rest =>
        simp [MdlHandler.verify, MdlHandler.verifyRaw, hdr, hda, hvd, hra, hmd, hels]
    | some ra =>
      cases els with
      | nil => exact absurd rfl hne
      | cons e rest =>
        simp [MdlHandler.verify, MdlHandler.verifyRaw, hdr, hda, hvd, hra, hre, hmd, hels]

/-- C8: with the collaborators absent (the default construction), a first
credential whose proof carries a non-empty type tag is rejected with the
unsupported-proof-type message exactly when the tag has no verifier in the
cryptoSuites record of the handler, and on a successful proof verification the
claims are the credentialSubject of the first credential with issuer and holder
copied through from the credential and the presentation. -/
theorem C8_w3c_proof_type_registry
    (h : W3cHandler) (p : VerifiablePresentation) (req : Option PresentationRequest)
    (cred : VerifiableCredential) (pr : Proof) (t : String)
    (hsc : h.statusChecker = none) (hdr : h.didResolver = none)
    (hsr : h.schemaRegistry = none)
    (hfc : firstCredential p = some cred) (hpr : cred.proof = some pr)
    (hpt : pr.type = some t) (ht : t.isEmpty = false) :
    (List.lookup t h.cryptoSuites = none →
      h.verify p req = rejectedWith ("Unsupported proof type: " ++ t)) ∧
    (∀ vf, List.lookup t h.cryptoSuites = some vf → vf pr = .ok true →
      h.verify p req =
        { status := .verified, claims := some (cred.credentialSubject.getD []),
          credentialType := some (credTypeLabel cred.type), issuer := cred.issuer,
          holder := p.holder, error := none }) := by
  constructor
  · intro hlk
    simp [W3cHandler.verify, W3cHandler.verifyRaw, hsc, hdr, hsr, hfc, hpr, hpt, ht, hlk]
  · intro vf hlk hvf
    simp [W3cHandler.verify, W3cHandler.verifyRaw, hsc, hdr, hsr, hfc, hpr, hpt, ht, hlk, hvf]

/-- C10: canHandle of the W3C handler accepts exactly a truthy
verifiableCredential, a truthy at-context field, or an array type containing
VerifiablePresentation; a presentation carrying only an at-context field is
accepted by canHandle and then rejected by verify for lacking a credential. -/
theorem C10_w3c_canhandle_shape
    (h : W3cHandler) (p : VerifiablePresentation) (req : Option PresentationRequest) :
    (h.canHandle p = true ↔
      (p.verifiableCredential.isSome = true ∨ p.context.isSome = true ∨
        ∃ l, p.type = .arr l ∧ "VerifiablePresentation" ∈ l)) ∧
    (p.verifiableCredential = none → p.context.isSome = true →
      h.canHandle p = true ∧ h.verify p req = rejectedWith "No verifiable credential") := by
  constructor
  · cases hty : p.type with
    | absent => simp [W3cHandler.canHandle, hty]
    | str s => simp [W3cHandler.canHandle, hty]
    | arr l => simp [W3cHandler.canHandle, hty, or_assoc]
  · intro hvc hctx
    refine ⟨by simp [W3cHandler.canHandle, hctx], ?_⟩
    simp [W3cHandler.verify, W3cHandler.verifyRaw, firstCredential, hvc]

/-! ## Witness fixtures for the handler claims -/

/-- A device auth object with truthy key and signature. -/
def sampleDeviceAuth : DeviceAuth :=
  { deviceKey := "device-key-1", sessionTranscript := "transcript-1",
    authSignature := "auth-sig-1" }

/-- A reader auth object. -/
def sampleReaderAuth : ReaderAuth :=
  { readerCertificate := "reader-cert-1", readerSignature := "reader-sig-1" }

/-- An mDoc with one non-empty data-element group. -/
def sampleMdoc : Mdoc :=
  { dataElements := some [("org.iso.18013.5.1", [("birthdate", "1990-01-01")])] }

/-- A device response with device auth, reader auth and mDoc present. -/
def sampleDeviceResponse : DeviceResponse :=
  { deviceAuth := some sampleDeviceAuth, readerAuth := some sampleReaderAuth,
    mdoc := some sampleMdoc }

/-- An mDL presentation carrying the sample device response. -/
def mdlPresentationWithReaderAuth : VerifiablePresentation :=
  { context := none, type := .str "mDL", verifiableCredential := none,
    holder := none, proof := none, deviceResponse := some sampleDeviceResponse }

/-- An mDL handler configured with reader authentication disabled. -/
def mdlHandlerNoReaderAuth : MdlHandler := MdlHandler.new (some false)

/-- C7 witness: a presentation with valid device auth and a present reader
auth verifies when reader authentication is disabled (the check is
skipped), and a presentation with no device response is rejected with the
no-device-response message. -/
theorem C7_witness :
    (mdlHandlerNoReaderAuth.verify mdlPresentationWithReaderAuth none).status = .verified ∧
    mdlHandlerNoReaderAuth.verify emptyPresentation none = rejectedWith "No device response" :=
  ⟨(C7_mdl_subcheck_order_and_messages mdlHandlerNoReaderAuth
      mdlPresentationWithReaderAuth none).2.2.2.2.2.2 sampleDeviceResponse
      sampleDeviceAuth sampleMdoc [("org.iso.18013.5.1", [("birthdate", "1990-01-01")])]
      rfl rfl rfl rfl rfl rfl (List.cons_ne_nil _ _),
   (C7_mdl_subcheck_order_and_messages mdlHandlerNoReaderAuth
      emptyPresentation none).1 rfl⟩

/-- A W3C Data Integrity proof of a given type tag. -/
def dataIntegrityProof (t : String) : Proof :=
  { type := some t, created := some "2024-01-01T00:00:00Z",
    verificationMethod := some "did:example:123#key-1",
    proofPurpose := some "assertionMethod", proofValue := some "sig",
    sdJwt := none, jws := none }

/-- A sample credential subject. -/
def sampleSubject : Claims := [("id", "did:example:holder"), ("birthdate", "1990-01-01")]

/-- A W3C credential whose proof carries the given type tag. -/
def w3cCredential (t : String) : VerifiableCredential :=
  { id := some "cred-1", type := .arr ["VerifiableCredential"],
    issuer := some "did:example:issuer", issuanceDate := some "2024-01-01",
    credentialSubject := some sampleSubject, proof := some (dataIntegrityProof t) }

/-- A W3C presentation whose first credential carries the given proof type
tag. -/
def w3cPresentation (t : String) : VerifiablePresentation :=
  { context := some ["https://www.w3.org/2018/credentials/v1"],
    type := .arr ["VerifiablePresentation"],
    verifiableCredential := some [w3cCredential t],
    holder := some "did:example:holder", proof := none, deviceResponse := none }

/-- The W3C handler as constructed with no injected collaborators. -/
def w3cDefaultHandler : W3cHandler := W3cHandler.new W3cHandlerOptions.empty

/-- C8 witness: an unregistered tag is rejected with the
unsupported-proof-type message; the Ed25519 tag resolves and the claims,
issuer and holder are copied through. -/
theorem C8_witness :
    w3cDefaultHandler.verify (w3cPresentation "FancyProof2099") none =
      rejectedWith ("Unsupported proof type: " ++ "FancyProof2099") ∧
    w3cDefaultHandler.verify (w3cPresentation "Ed25519Signature2020") none =
      { status := .verified,
        claims := some ((w3cCredential "Ed25519Signature2020").credentialSubject.getD []),
        credentialType := some (credTypeLabel (w3cCredential "Ed25519Signature2020").type),
        issuer := (w3cCredential "Ed25519Signature2020").issuer,
        holder := (w3cPresentation "Ed25519Signature2020").holder, error := none } :=
  ⟨(C8_w3c_proof_type_registry w3cDefaultHandler (w3cPresentation "FancyProof2099") none
      (w3cCredential "FancyProof2099") (dataIntegrityProof "FancyProof2099")
      "FancyProof2099" rfl rfl rfl rfl rfl rfl rfl).1 rfl,
   (C8_w3c_proof_type_registry w3cDefaultHandler (w3cPresentation "Ed25519Signature2020") none
      (w3cCredential "Ed25519Signature2020") (dataIntegrityProof "Ed25519Signature2020")
      "Ed25519Signature2020" rfl rfl rfl rfl rfl rfl rfl).2
      (fun pr => .ok (ed25519Suite.verifyProof pr)) rfl rfl⟩

/-- A presentation carrying only an at-context field. -/
def contextOnlyPresentation : VerifiablePresentation :=
  { context := some ["https://www.w3.org/2018/credentials/v1"], type := .absent,
    verifiableCredential := none, holder := none, proof := none, deviceResponse := none }

/-- C10 witness: the context-only presentation is claimed by canHandle and
then rejected by verify for lacking a credential. -/
theorem C10_witness :
    w3cDefaultHandler.canHandle contextOnlyPresentation = true ∧
    w3cDefaultHandler.verify contextOnlyPresentation none =
      rejectedWith "No verifiable credential" :=
  (C10_w3c_canhandle_shape w3cDefaultHandler contextOnlyPresentation none).2 rfl rfl

end VerifierSDK
